import Mathlib

/-!
# Leather Walk backend — cart & order core, shallow embedding

This file embeds the cart/order core of the `leather-walk-backend`
repository (an Express/Mongoose online-shop backend) into Lean 4 and
proves properties of it.

Modelling conventions:
* JS numbers (prices, quantities, stock counts, timestamps) are modelled
  as integers `ℤ` (none of the verified claims depends on
  non-integral values; floating-point rounding is out of scope).
* Mongo ObjectIds are strings; `mongoose.Types.ObjectId.isValid` is
  modelled as "24 hexadecimal characters" (the format accepted for
  hex-string inputs).
* A route handler is a pure function from a database state `DB` and the
  request data to a response `Resp α` and a new database state.
* `Product.findById` / `Order.findById` / `User.findById` cast their
  argument to an ObjectId first; an invalid format makes the promise
  reject with a `CastError`, which each route's `catch` turns into a
  500 "Server Error" response.  This is modelled by an explicit
  `isValidObjectId` test selecting the 500 branch.
* `save()` / `findOneAndUpdate(..., runValidators: true)` run schema
  validation; a validation failure rejects, which the route's `catch`
  turns into a 500 response with the database unchanged.
-/

/-- `mongoose.Types.ObjectId.isValid` on a string: 24 hex characters. -/
def isValidObjectId (s : String) : Bool :=
  s.length == 24 && s.toList.all (fun c =>
    c.isDigit || (('a' ≤ c && c ≤ 'f') || ('A' ≤ c && c ≤ 'F')))

/-- HTTP-ish response of a route handler: a success body or an error
with a status code and message. -/
inductive Resp (α : Type) where
  | ok (status : Nat) (body : α)
  | err (status : Nat) (message : String)
deriving DecidableEq

/-- The HTTP status code of a response. -/
def Resp.status {α : Type} : Resp α → Nat
  | .ok s _ => s
  | .err s _ => s

/-- `models/ProductModel.js` — `productSchema`.  The stock field is
`quantity` ("// This is your stock"); the schema declares **no** `stock`
path. -/
structure Product where
  name : String
  description : String
  price : ℤ
  quantity : ℤ
  imageUrl : String
  category : String
  brand : String
  size : String
  color : String
deriving DecidableEq, Inhabited

/-- `models/CartModel.js` — one element of `cartSchema.products`. -/
structure CartItem where
  productId : String
  quantity : ℤ
  priceAtTimeOfAddition : ℤ
deriving DecidableEq, Inhabited

/-- `models/CartModel.js` — `cartSchema`: one cart per user. -/
structure Cart where
  user : String
  products : List CartItem
deriving DecidableEq, Inhabited

/-- `models/OdersModel.js` — one element of `OrderSchema.products`
(the denormalized at-time-of-order snapshot). -/
structure OrderItem where
  productId : String
  quantity : ℤ
  priceAtTimeOfOrder : ℤ
  nameAtTimeOfOrder : String
  imageUrlAtTimeOfOrder : String
  sizeAtTimeOfOrder : String
  colorAtTimeOfOrder : String
deriving DecidableEq, Inhabited

/-- `models/OdersModel.js` — `OrderSchema.shippingInfo`. -/
structure ShippingInfo where
  fullName : String
  phone : String
  county : String
  pickupStation : String
deriving DecidableEq, Inhabited

/-- `models/OdersModel.js` — `OrderSchema`. -/
structure Order where
  userId : String
  products : List OrderItem
  shippingInfo : ShippingInfo
  paymentMethod : String
  mpesaNumber : Option String
  subtotalAmount : ℤ
  shippingCost : ℤ
  totalAmount : ℤ
  paymentStatus : String
  orderStatus : String
  trackingNumber : Option String
  deliveredAt : Option ℤ
deriving DecidableEq, Inhabited

/-- Mongoose `required: true` on a String path rejects the empty
string, so `shippingInfo` validates iff all four fields are nonempty. -/
def ShippingInfo.valid (s : ShippingInfo) : Bool :=
  s.fullName ≠ "" && s.phone ≠ "" && s.county ≠ "" && s.pickupStation ≠ ""

/-- Validation of one order line item per `OrderSchema.products`:
`quantity` has `min: 1`, `nameAtTimeOfOrder` is a required String. -/
def OrderItem.valid (it : OrderItem) : Bool :=
  1 ≤ it.quantity && it.nameAtTimeOfOrder ≠ ""

/-- `OrderSchema` enum for `paymentMethod`. -/
def paymentMethods : List String := ["cod", "card", "mpesa"]

/-- `OrderSchema` enum for `paymentStatus`. -/
def paymentStatuses : List String := ["Pending", "Paid", "Failed", "Refunded"]

/-- `OrderSchema` enum for `orderStatus`. -/
def orderStatuses : List String :=
  ["Pending", "Processing", "Shipped", "Delivered", "Cancelled", "Returned"]

/-- Mongoose document validation run by `order.save()`: required paths
nonempty, enums respected, `min` bounds respected.  (`deliveredAt`,
`trackingNumber` and `mpesaNumber` are optional and unconstrained.) -/
def Order.valid (o : Order) : Bool :=
  o.userId ≠ "" &&
  o.products.all OrderItem.valid &&
  o.shippingInfo.valid &&
  paymentMethods.contains o.paymentMethod &&
  paymentStatuses.contains o.paymentStatus &&
  orderStatuses.contains o.orderStatus &&
  decide (0 ≤ o.subtotalAmount) && decide (0 ≤ o.shippingCost) &&
  decide (0 ≤ o.totalAmount)

/-- Replace the first association with key `k` by `(k, a)`; append if
no key matches (Mongo upsert on a unique key). -/
def upsertByKey {α : Type} : List (String × α) → String → α → List (String × α)
  | [], k, a => [(k, a)]
  | (k₀, a₀) :: rest, k, a =>
    if k₀ == k then (k, a) :: rest else (k₀, a₀) :: upsertByKey rest k a

/-- Look up an association by key. -/
def lookupKey {α : Type} (l : List (String × α)) (k : String) : Option α :=
  (l.find? (·.1 == k)).map (·.2)

/-- Replace the first cart owned by `c.user` by `c`; append if none
(the `upsert: true` of `Cart.findOneAndUpdate({ user }, ...)`). -/
def replaceCart : List Cart → Cart → List Cart
  | [], c => [c]
  | c₀ :: rest, c =>
    if c₀.user == c.user then c :: rest else c₀ :: replaceCart rest c

/-- The document store: the four Mongoose collections.  Users are kept
as their ids only (the routes below use a user document solely for an
existence check).  `orderSeq` generates ids for newly inserted orders. -/
structure DB where
  products : List (String × Product)
  users : List String
  carts : List Cart
  orders : List (String × Order)
  orderSeq : Nat
deriving DecidableEq, Inhabited

/-- `Product.findById` (on a format-valid id). -/
def DB.findProduct (db : DB) (id : String) : Option Product :=
  lookupKey db.products id

/-- `Cart.findOne({ user: userId })`. -/
def DB.findCart (db : DB) (userId : String) : Option Cart :=
  db.carts.find? (·.user == userId)

/-- The line items of a user's cart (`[]` when the cart is absent). -/
def DB.findCartItems (db : DB) (userId : String) : List CartItem :=
  match db.findCart userId with
  | some c => c.products
  | none => []

/-- Persist a cart (upsert keyed by the unique `user` field). -/
def DB.setCart (db : DB) (c : Cart) : DB :=
  { db with carts := replaceCart db.carts c }

/-- `Cart.findOneAndDelete({ user: userId })`'s effect. -/
def DB.removeCart (db : DB) (userId : String) : DB :=
  { db with carts := db.carts.filter (fun c => ¬ c.user == userId) }

/-- Replace a product document (admin edits / persisted saves). -/
def DB.setProduct (db : DB) (id : String) (p : Product) : DB :=
  { db with products := upsertByKey db.products id p }

/-- `Order.findById` (on a format-valid id). -/
def DB.findOrder (db : DB) (id : String) : Option Order :=
  lookupKey db.orders id

/-- Persist a fetched-and-modified order (`order.save()`). -/
def DB.setOrder (db : DB) (id : String) (o : Order) : DB :=
  { db with orders := upsertByKey db.orders id o }

/-! ## Cart routes (`src/routes/cartRoute.js`) -/

/-- The `addItem` insufficient-stock message:
`Insufficient stock for ${name}. Available: ${avail}, Requested: ${req}.` -/
def addInsufficientMsg (name : String) (avail requested : ℤ) : String :=
  "Insufficient stock for " ++ name ++ ". Available: " ++ toString avail ++
    ", Requested: " ++ toString requested ++ "."

/-- The `validateCartItems` insufficient-stock message (the JS template
additionally wraps the product name in single quotes). -/
def putInsufficientMsg (name : String) (avail requested : ℤ) : String :=
  "Insufficient stock for product " ++ name ++ ". Available: " ++
    toString avail ++ ", Requested: " ++ toString requested ++ "."

/-- `GET /api/carts/:userId` — fetch a cart; a missing cart yields a
synthetic empty cart with status 200, not a 404.  (The `populate` call
only shapes the JSON payload and is not modelled.) -/
def getCart (db : DB) (userId : String) : Resp Cart :=
  if ¬ isValidObjectId userId then .err 400 "Invalid User ID format."
  else
    match db.findCart userId with
    | none => .ok 200 ⟨userId, []⟩
    | some cart => .ok 200 cart

/-- Update the first cart line item whose `productId` is `pid`:
`$inc` its quantity by `q` and `$set` its price to `price`
(the Mongo positional `$` operator targets the first array match). -/
def incFirst : List CartItem → String → ℤ → ℤ → List CartItem
  | [], _, _, _ => []
  | it :: rest, pid, q, price =>
    if it.productId == pid then
      { it with quantity := it.quantity + q, priceAtTimeOfAddition := price } :: rest
    else it :: incFirst rest pid q price

/-- `POST /api/carts/:userId/add` — add `quantity` units of a product to
the user's cart.  After validation and the stock check, the handler
first attempts `Cart.findOneAndUpdate({ user, products.productId },
{ $inc quantity, $set price })`; if no document matched it falls back to
`Cart.findOneAndUpdate({ user }, { $push item }, { upsert: true })`. -/
def addItem (db : DB) (userId productId : String) (quantity : ℤ) :
    Resp Cart × DB :=
  if userId = "" ∨ ¬ isValidObjectId userId then
    (.err 400 "Valid User ID is required.", db)
  else if productId = "" ∨ ¬ isValidObjectId productId then
    (.err 400 "Valid Product ID is required.", db)
  else if quantity < 1 then
    (.err 400 "Quantity must be a positive number (at least 1).", db)
  else
    match db.findProduct productId with
    | none => (.err 404 "Product not found.", db)
    | some product =>
      let existing := (db.findCartItems userId).find? (·.productId == productId)
      let newQuantity := quantity + (existing.map (·.quantity)).getD 0
      if product.quantity < newQuantity then
        (.err 400 (addInsufficientMsg product.name product.quantity newQuantity), db)
      else
        let price := product.price
        match db.findCart userId with
        | some cart =>
          if cart.products.any (·.productId == productId) then
            -- the first findOneAndUpdate matched: positional $inc / $set
            let c := { cart with products := incFirst cart.products productId quantity price }
            (.ok 200 c, db.setCart c)
          else
            -- no match on products.productId: $push onto the existing cart
            let c := { cart with products := cart.products ++ [⟨productId, quantity, price⟩] }
            (.ok 200 c, db.setCart c)
        | none =>
          -- no cart at all: the upsert creates one holding just this item
          let c : Cart := ⟨userId, [⟨productId, quantity, price⟩]⟩
          (.ok 200 c, db.setCart c)

/-- `validateCartItems` helper of `cartRoute.js`: per-item validation
for the full-replace update, stopping at the first failing item.
(The JS `typeof item.quantity !== 'number'` branches are unreachable
here because the embedding types quantities and prices as numbers.) -/
def validateCartItems (db : DB) : List CartItem → Except (Nat × String) (List CartItem)
  | [] => .ok []
  | item :: rest =>
    if item.productId = "" then
      .error (400, "Product ID is required for all cart items.")
    else if ¬ isValidObjectId item.productId then
      .error (400, "Invalid Product ID format for " ++ item.productId ++ ".")
    else if item.quantity < 0 then
      .error (400, "Quantity for product ID " ++ item.productId ++
        " must be a number and at least 0.")
    else if item.priceAtTimeOfAddition < 0 then
      .error (400, "Price at time of addition is required and must be a non-negative number for product ID "
        ++ item.productId ++ ".")
    else
      match db.findProduct item.productId with
      | none => .error (404, "Product with ID " ++ item.productId ++ " not found.")
      | some product =>
        if 0 < item.quantity ∧ product.quantity < item.quantity then
          .error (400, putInsufficientMsg product.name product.quantity item.quantity)
        else
          (validateCartItems db rest).map
            (⟨item.productId, item.quantity, item.priceAtTimeOfAddition⟩ :: ·)

/-- `PUT /api/carts/:userId` — replace the whole products array.
Validated items with quantity 0 are dropped ("removed"); the rest are
written with `runValidators: true`, whose `min: 1` on quantity rejects
fractional quantities below 1 (surfacing as a 500, database unchanged). -/
def setItems (db : DB) (userId : String) (products : List CartItem) :
    Resp Cart × DB :=
  if userId = "" ∨ ¬ isValidObjectId userId then
    (.err 400 "User ID is required and must be valid.", db)
  else
    match validateCartItems db products with
    | .error e => (.err e.1 e.2, db)
    | .ok validatedProducts =>
      let productsToSave := validatedProducts.filter (fun it => decide (0 < it.quantity))
      if productsToSave.all (fun it => decide (1 ≤ it.quantity)) then
        let c : Cart := ⟨userId, productsToSave⟩
        (.ok 200 c, db.setCart c)
      else
        (.err 500 "Failed to update cart items.", db)

/-- `DELETE /api/carts/:userId` — delete the cart document wholesale;
a missing cart is a 404 (unlike the read, by design). -/
def clearCart (db : DB) (userId : String) : Resp String × DB :=
  if ¬ isValidObjectId userId then
    (.err 400 "Invalid User ID format.", db)
  else
    match db.findCart userId with
    | none => (.err 404 "Cart not found for this user.", db)
    | some _ => (.ok 200 "Cart deleted successfully.", db.removeCart userId)

/-! ## Order routes (`src/routes/ordersRoute.js`) -/

/-- One element of `req.body.products` in `POST /api/orders`:
the client-submitted line item (its `price` is advisory only). -/
structure OrderReqItem where
  productId : String
  quantity : ℤ
  price : ℤ
  size : String
  color : String
deriving DecidableEq, Inhabited

/-- The body of `POST /api/orders`.  `subtotalAmount` and `totalAmount`
are destructured by the handler but never used. -/
structure CreateOrderReq where
  userId : String
  products : List OrderReqItem
  shippingInfo : ShippingInfo
  paymentMethod : String
  mpesaNumber : Option String
  subtotalAmount : ℤ
  shippingCost : ℤ
  totalAmount : ℤ
deriving DecidableEq, Inhabited

/-- `ordersRoute.js` reads `product.stock`, but `productSchema` declares
no `stock` path (the stock field is `quantity`), so `product.stock` is
`undefined`; in JS `undefined < n` converts `undefined` to `NaN` and any
comparison involving `NaN` is `false`.  Hence the guard
`product.stock < item.quantity` is `false` for every quantity. -/
def undefinedLtNum (_n : ℤ) : Bool := false

/-- JS `x || 'N/A'` on an optional string field of the request body. -/
def orNA (s : String) : String := if s = "" then "N/A" else s

/-- The per-item loop of `POST /api/orders`: look the product up, run
the (ineffective, see `undefinedLtNum`) stock guard, accumulate the
server-side subtotal from the live price, and snapshot the product into
the order line item.  The subsequent
`product.stock -= item.quantity; await product.save()` assigns a path
that is not in `productSchema`, so the save persists no change to the
stored product — the product collection is left untouched, which is why
no updated product state is produced here.  An id that fails the
ObjectId cast makes `Product.findById` reject, surfacing as a 500. -/
def processOrderItems (db : DB) : List OrderReqItem →
    Except (Nat × String) (ℤ × List OrderItem)
  | [] => .ok (0, [])
  | item :: rest =>
    if ¬ isValidObjectId item.productId then
      .error (500, "Server Error")
    else
      match db.findProduct item.productId with
      | none => .error (404, "Product with ID " ++ item.productId ++ " not found.")
      | some product =>
        if undefinedLtNum item.quantity then
          .error (400, "Insufficient stock for " ++ product.name ++ ". Available: undefined")
        else
          -- a price mismatch beyond 0.01 only logs a console warning
          match processOrderItems db rest with
          | .error e => .error e
          | .ok (sub, acc) =>
            .ok (product.price * item.quantity + sub,
              { productId := item.productId
                quantity := item.quantity
                priceAtTimeOfOrder := product.price
                nameAtTimeOfOrder := product.name
                imageUrlAtTimeOfOrder := product.imageUrl
                sizeAtTimeOfOrder := orNA item.size
                colorAtTimeOfOrder := orNA item.color } :: acc)

/-- `POST /api/orders` — create an order.  After the per-item loop the
totals are computed server-side and the order inserted.  The follow-up
`User.findByIdAndUpdate(userId, { $set: { cart: [] } })` targets the
**User** document, whose schema has no `cart` path, so strict mode drops
the update; the Cart collection is never touched and the user's cart
survives order creation unchanged. -/
def createOrder (db : DB) (req : CreateOrderReq) : Resp Order × DB :=
  if req.userId = "" then
    (.err 400 "User ID is required to create an order.", db)
  else if req.products.isEmpty then
    (.err 400 "No order items", db)
  else if ¬ isValidObjectId req.userId then
    -- User.findById rejects with a CastError, caught as a 500
    (.err 500 "Server Error", db)
  else if ¬ db.users.contains req.userId then
    (.err 404 "User not found.", db)
  else
    match processOrderItems db req.products with
    | .error e => (.err e.1 e.2, db)
    | .ok (calculatedSubtotal, orderProducts) =>
      let backendCalculatedTotal := calculatedSubtotal + req.shippingCost
      let order : Order :=
        { userId := req.userId
          products := orderProducts
          shippingInfo := req.shippingInfo
          paymentMethod := req.paymentMethod
          mpesaNumber := if req.paymentMethod = "mpesa" then req.mpesaNumber else none
          subtotalAmount := calculatedSubtotal
          shippingCost := req.shippingCost
          totalAmount := backendCalculatedTotal
          paymentStatus := "Pending"
          orderStatus := "Pending"
          trackingNumber := none
          deliveredAt := none }
      if order.valid then
        (.ok 201 order,
          { db with
            orders := db.orders ++ [(toString db.orderSeq, order)]
            orderSeq := db.orderSeq + 1 })
      else
        (.err 500 "Server Error", db)

/-- `GET /api/orders/myorders/:userId` — all orders of one user.  The
route does not validate the id; a format-invalid id makes `Order.find`
reject with a CastError, caught as a 500.  (The `createdAt` sort and the
`populate` only shape the payload and are not modelled.) -/
def getMyOrders (db : DB) (userId : String) : Resp (List Order) :=
  if ¬ isValidObjectId userId then .err 500 "Server Error"
  else .ok 200 ((db.orders.filter (fun p => p.2.userId == userId)).map (·.2))

/-- `GET /api/orders/:id` — fetch one order.  The route does not
validate the id; a format-invalid id makes `Order.findById` reject with
a CastError, caught as a 500. -/
def getOrderById (db : DB) (id : String) : Resp Order :=
  if ¬ isValidObjectId id then .err 500 "Server Error"
  else
    match db.findOrder id with
    | none => .err 404 "Order not found"
    | some order => .ok 200 order

/-- `if (orderStatus) { order.orderStatus = orderStatus; }` — the body
value is assigned only when truthy (absent or empty string: no-op). -/
def applyOrderStatus (o : Order) (orderStatus : Option String) : Order :=
  match orderStatus with
  | some s => if s ≠ "" then { o with orderStatus := s } else o
  | none => o

/-- `if (trackingNumber !== undefined) { order.trackingNumber = ... }`. -/
def applyTracking (o : Order) (trackingNumber : Option String) : Order :=
  match trackingNumber with
  | some t => { o with trackingNumber := some t }
  | none => o

/-- Truthiness of the body's `deliveredAt` (a JS value modelled as a
numeric timestamp: absent and `0` are falsy). -/
def deliveredAtTruthy : Option ℤ → Bool
  | some d => d ≠ 0
  | none => false

/-- `PUT /api/orders/:id/status` — set `orderStatus` and/or
`trackingNumber`; a truthy body `deliveredAt` is stored as given, else
the transition to `"Delivered"` auto-stamps `deliveredAt` with the
current time `now` when it is not already set.  `order.save()`
validation failure (e.g. an `orderStatus` outside the enum) surfaces as
a 500 with the database unchanged; a format-invalid id as a 500 via the
`Order.findById` CastError.  The in-memory field assignments are
factored into `statusPatch` below, `updateOrderStatus` being the
route handler itself. -/
def statusPatch (o : Order) (orderStatus trackingNumber : Option String)
    (deliveredAt : Option ℤ) (now : ℤ) : Order :=
  let o₁ := applyOrderStatus o orderStatus
  let o₂ := applyTracking o₁ trackingNumber
  if deliveredAtTruthy deliveredAt then
    { o₂ with deliveredAt := deliveredAt }
  else if orderStatus = some "Delivered" ∧ o₂.deliveredAt = none then
    { o₂ with deliveredAt := some now }
  else o₂

def updateOrderStatus (db : DB) (id : String) (orderStatus trackingNumber : Option String)
    (deliveredAt : Option ℤ) (now : ℤ) : Resp Order × DB :=
  if ¬ isValidObjectId id then (.err 500 "Server Error", db)
  else
    match db.findOrder id with
    | none => (.err 404 "Order not found", db)
    | some order =>
      let o₃ := statusPatch order orderStatus trackingNumber deliveredAt now
      if o₃.valid then (.ok 200 o₃, db.setOrder id o₃)
      else (.err 500 "Server Error", db)

/-- `PUT /api/orders/:id/payment-status` — set `paymentStatus` after an
explicit membership check against the payment-status enum (an absent
body value fails the `includes` check, yielding the 400). -/
def updatePaymentStatus (db : DB) (id : String) (paymentStatus : Option String) :
    Resp Order × DB :=
  if ¬ isValidObjectId id then (.err 500 "Server Error", db)
  else
    match db.findOrder id with
    | none => (.err 404 "Order not found", db)
    | some order =>
      match paymentStatus with
      | none => (.err 400 "Invalid payment status", db)
      | some s =>
        if paymentStatuses.contains s then
          let o := { order with paymentStatus := s }
          if o.valid then (.ok 200 o, db.setOrder id o)
          else (.err 500 "Server Error", db)
        else (.err 400 "Invalid payment status", db)

/-! ## Concrete fixtures used by witnesses and counterexamples -/

/-- A format-valid user id. -/
def uidA : String := "aaaaaaaaaaaaaaaaaaaaaaaa"

/-- A format-valid product id. -/
def pidB : String := "bbbbbbbbbbbbbbbbbbbbbbbb"

/-- A format-valid order id. -/
def oidC : String := "cccccccccccccccccccccccc"

/-- A sample product: price 10, stock 5. -/
def bootP : Product :=
  { name := "Leather Boot", description := "", price := 10, quantity := 5
    imageUrl := "boot.jpg", category := "shoes", brand := "", size := "42"
    color := "brown" }

/-- A valid shipping block. -/
def shipOK : ShippingInfo :=
  { fullName := "Jane Doe", phone := "0700000000", county := "Nairobi"
    pickupStation := "CBD" }

/-- State for the order-creation checks: one user, one product with
stock 5, and a cart holding 3 units of it. -/
def db1 : DB :=
  { products := [(pidB, bootP)], users := [uidA]
    carts := [⟨uidA, [⟨pidB, 3, 10⟩]⟩], orders := [], orderSeq := 0 }

/-- An order request for 3 units of `pidB` with shipping cost 2. -/
def req1 : CreateOrderReq :=
  { userId := uidA, products := [⟨pidB, 3, 10, "", ""⟩]
    shippingInfo := shipOK, paymentMethod := "cod", mpesaNumber := none
    subtotalAmount := 30, shippingCost := 2, totalAmount := 32 }

/-- State with stock 1 only, for the oversell check. -/
def db2 : DB :=
  { products := [(pidB, { bootP with quantity := 1 })], users := [uidA]
    carts := [], orders := [], orderSeq := 0 }

/-- An order request for 5 units although only 1 is in stock. -/
def req2 : CreateOrderReq :=
  { userId := uidA, products := [⟨pidB, 5, 10, "", ""⟩]
    shippingInfo := shipOK, paymentMethod := "cod", mpesaNumber := none
    subtotalAmount := 50, shippingCost := 0, totalAmount := 50 }

/-! ## C1 / C2 — order creation versus stock and the cart -/

/-- C1: the claim says a successful `createOrder` decrements each
ordered product's live stock by the ordered quantity and leaves the
user's cart empty or absent.  On `db1`/`req1` the order succeeds (201),
yet the stored stock is still 5 (not 2) because the decrement is applied
to the nonexistent `product.stock` path, and the user's cart still holds
its line item because the "cart clear" writes a nonexistent `cart` path
of the User document instead of touching the Cart collection. -/
theorem createOrder_stock_and_cart_bug :
    (createOrder db1 req1).1.status = 201 ∧
    ((createOrder db1 req1).2.findProduct pidB).map Product.quantity = some 5 ∧
    (createOrder db1 req1).2.findCart uidA = some ⟨uidA, [⟨pidB, 3, 10⟩]⟩ := by
  decide

/-- C2: the claim says `createOrder` fails with InsufficientStock when a
requested quantity exceeds the live stock.  On `db2`/`req2` the stock is
1 and the requested quantity 5, yet the order is created (201) and
persisted, because the guard compares against the nonexistent
`product.stock` path (`undefined < 5` is `false` in JS). -/
theorem createOrder_oversell_bug :
    (createOrder db2 req2).1.status = 201 ∧
    (createOrder db2 req2).2.orders.length = 1 ∧
    ((db2.findProduct pidB).map Product.quantity = some 1) := by
  decide

/-! ## C3 — server-side totals -/

/-- The server-side sum `Σ livePrice × quantity` over the request's
items, read off the pre-request database state. -/
def liveSubtotal (db : DB) : List OrderReqItem → ℤ
  | [] => 0
  | it :: rest =>
    (match db.findProduct it.productId with
      | some p => p.price * it.quantity
      | none => 0) + liveSubtotal db rest

/-- The per-item loop accumulates exactly the live-price subtotal. -/
theorem processOrderItems_subtotal (db : DB) (items : List OrderReqItem) :
    ∀ sub ois, processOrderItems db items = .ok (sub, ois) →
      sub = liveSubtotal db items := by
  induction items with
  | nil =>
    intro sub ois h
    simp only [processOrderItems, Except.ok.injEq, Prod.mk.injEq] at h
    simp [liveSubtotal, h.1.symm]
  | cons item rest ih =>
    intro sub ois h
    simp only [processOrderItems, undefinedLtNum, Bool.false_eq_true, if_false] at h
    split at h
    · exact absurd h (by simp)
    · split at h
      · exact absurd h (by simp)
      · rename_i hfind
        split at h
        · exact absurd h (by simp)
        · rename_i sub' acc hrec
          simp only [Except.ok.injEq, Prod.mk.injEq] at h
          obtain ⟨hsub, -⟩ := h
          subst hsub
          simp [liveSubtotal, hfind, ih _ _ hrec]


theorem createOrder_totals (db : DB) (req : CreateOrderReq) (order : Order) (dbA : DB)
    (h : createOrder db req = (.ok 201 order, dbA)) :
    order.subtotalAmount = liveSubtotal db req.products ∧
    order.totalAmount = liveSubtotal db req.products + req.shippingCost := by
  unfold createOrder at h
  split at h
  · exact absurd h (by simp)
  split at h
  · exact absurd h (by simp)
  split at h
  · exact absurd h (by simp)
  split at h
  · exact absurd h (by simp)
  split at h
  · exact absurd h (by simp)
  rename_i sub ois hrec
  have hs := processOrderItems_subtotal db req.products sub ois hrec
  dsimp only at h
  split at h <;>
  · split at h
    · simp only [Prod.mk.injEq, Resp.ok.injEq] at h
      obtain ⟨⟨-, horder⟩, -⟩ := h
      subst horder
      exact ⟨hs, by rw [hs]⟩
    · exact absurd h (by simp)

/-- A request whose client-side numbers are all junk: price 999,
subtotal 1, total 7; the live price is 10 and shipping 2. -/
def reqJunk : CreateOrderReq :=
  { userId := uidA, products := [⟨pidB, 3, 999, "", ""⟩]
    shippingInfo := shipOK, paymentMethod := "cod", mpesaNumber := none
    subtotalAmount := 1, shippingCost := 2, totalAmount := 7 }

/-- The order persisted for `reqJunk` on `db1`. -/
def orderJunk : Order :=
  match (createOrder db1 reqJunk).1 with
  | .ok _ o => o
  | .err _ _ => default

/-- The database state after `reqJunk` on `db1`. -/
def dbJunk : DB := (createOrder db1 reqJunk).2

/-- Witness for C3: on `db1` the junk-priced request succeeds, and the
persisted totals are the server-side ones (subtotal 30, total 32), not
the client's. -/
theorem createOrder_totals_witness :
    createOrder db1 reqJunk = (.ok 201 orderJunk, dbJunk) ∧
    orderJunk.subtotalAmount = liveSubtotal db1 reqJunk.products ∧
    orderJunk.totalAmount = liveSubtotal db1 reqJunk.products + reqJunk.shippingCost := by
  refine ⟨by decide, ?_, ?_⟩
  · exact (createOrder_totals db1 reqJunk orderJunk dbJunk (by decide)).1
  · exact (createOrder_totals db1 reqJunk orderJunk dbJunk (by decide)).2

/-! ## Store lemmas -/

/-- Upserting an association and looking the same key up yields the
upserted value. -/
theorem lookupKey_upsertByKey {α : Type} (l : List (String × α)) (k : String) (a : α) :
    lookupKey (upsertByKey l k a) k = some a := by
  induction l with
  | nil => simp [upsertByKey, lookupKey]
  | cons hd tl ih =>
    obtain ⟨k₀, a₀⟩ := hd
    by_cases hk : k₀ == k
    · simp [upsertByKey, hk, lookupKey]
    · simp only [upsertByKey, hk, if_false, Bool.false_eq_true]
      simpa [lookupKey, hk] using ih

/-- Upserting one key leaves every other key's association alone. -/
theorem lookupKey_upsertByKey_ne {α : Type} (l : List (String × α)) (k k' : String)
    (a : α) (hne : k' ≠ k) :
    lookupKey (upsertByKey l k a) k' = lookupKey l k' := by
  induction l with
  | nil =>
    simp only [upsertByKey, lookupKey]
    simp
    exact fun h => hne (Eq.symm h)
  | cons hd tl ih =>
    obtain ⟨k₀, a₀⟩ := hd
    by_cases hk : k₀ == k
    · have hkk : ¬ (k = k') := fun h => hne (Eq.symm h)
      simp [upsertByKey, hk, lookupKey, hkk, (by simpa using hk : k₀ = k)]
    · simp only [upsertByKey, hk, if_false, Bool.false_eq_true]
      by_cases h0 : k₀ == k'
      · simp [lookupKey, h0]
      · simpa [lookupKey, h0] using ih

/-- Saving an order and re-reading it by the same id yields the saved
document. -/
theorem findOrder_setOrder (db : DB) (id : String) (o : Order) :
    (db.setOrder id o).findOrder id = some o := by
  simp [DB.findOrder, DB.setOrder, lookupKey_upsertByKey]

/-- `Order.valid` never looks at `deliveredAt`. -/
theorem Order.valid_set_deliveredAt (o : Order) (d : Option ℤ) :
    Order.valid { o with deliveredAt := d } = Order.valid o := by
  simp [Order.valid]

/-- One `"Delivered"` status update without a body `deliveredAt`, on an
order not yet stamped: the handler stamps `deliveredAt := now`. -/
theorem updateOrderStatus_delivered_stamps (db : DB) (oid : String) (o : Order) (t : ℤ)
    (hid : isValidObjectId oid = true)
    (hfind : db.findOrder oid = some o)
    (hnone : o.deliveredAt = none)
    (hval : Order.valid { o with orderStatus := "Delivered", deliveredAt := some t } = true) :
    updateOrderStatus db oid (some "Delivered") none none t =
      (.ok 200 { o with orderStatus := "Delivered", deliveredAt := some t },
        db.setOrder oid { o with orderStatus := "Delivered", deliveredAt := some t }) := by
  simp [updateOrderStatus, statusPatch, hid, hfind, applyOrderStatus, applyTracking,
    deliveredAtTruthy, hnone, hval]

/-- One `"Delivered"` status update without a body `deliveredAt`, on an
order whose `deliveredAt` is already set: the stamp is not touched. -/
theorem updateOrderStatus_delivered_keeps (db : DB) (oid : String) (o : Order) (t d : ℤ)
    (hid : isValidObjectId oid = true)
    (hfind : db.findOrder oid = some o)
    (hsome : o.deliveredAt = some d)
    (hval : Order.valid { o with orderStatus := "Delivered" } = true) :
    updateOrderStatus db oid (some "Delivered") none none t =
      (.ok 200 { o with orderStatus := "Delivered" },
        db.setOrder oid { o with orderStatus := "Delivered" }) := by
  simp [updateOrderStatus, statusPatch, hid, hfind, applyOrderStatus, applyTracking,
    deliveredAtTruthy, hsome]
  simpa [Order.valid] using hval

/-- C7: setting `orderStatus` to `"Delivered"` without a body
`deliveredAt` stamps `deliveredAt` with the transition time `t₁`;
repeating the same update later (time `t₂`) leaves the stamp at `t₁`. -/
theorem delivered_stamp_once (db : DB) (oid : String) (o : Order) (t₁ t₂ : ℤ)
    (hid : isValidObjectId oid = true)
    (hfind : db.findOrder oid = some o)
    (hnone : o.deliveredAt = none)
    (hval : Order.valid { o with orderStatus := "Delivered" } = true) :
    (((updateOrderStatus db oid (some "Delivered") none none t₁).2.findOrder oid).map
        Order.deliveredAt = some (some t₁)) ∧
    ((((updateOrderStatus (updateOrderStatus db oid (some "Delivered") none none t₁).2
        oid (some "Delivered") none none t₂).2.findOrder oid).map
        Order.deliveredAt) = some (some t₁)) := by
  have hval₁ : Order.valid { o with orderStatus := "Delivered", deliveredAt := some t₁ } = true := by
    simpa [Order.valid] using hval
  have h1 := updateOrderStatus_delivered_stamps db oid o t₁ hid hfind hnone hval₁
  have h2 : (updateOrderStatus db oid (some "Delivered") none none t₁).2.findOrder oid =
      some { o with orderStatus := "Delivered", deliveredAt := some t₁ } := by
    rw [h1]; exact findOrder_setOrder ..
  refine ⟨by rw [h2]; rfl, ?_⟩
  have h3 := updateOrderStatus_delivered_keeps
    (updateOrderStatus db oid (some "Delivered") none none t₁).2 oid
    { o with orderStatus := "Delivered", deliveredAt := some t₁ } t₂ t₁ hid h2 rfl
    (by simpa [Order.valid] using hval)
  rw [h3]
  rw [findOrder_setOrder]
  rfl

/-- A delivered-stamp-free order fixture (status `"Shipped"`). -/
def orderC : Order :=
  { userId := uidA
    products := [⟨pidB, 3, 10, "Leather Boot", "boot.jpg", "42", "brown"⟩]
    shippingInfo := shipOK, paymentMethod := "cod", mpesaNumber := none
    subtotalAmount := 30, shippingCost := 2, totalAmount := 32
    paymentStatus := "Pending", orderStatus := "Shipped", trackingNumber := none
    deliveredAt := none }

/-- A store holding just `orderC` under `oidC`. -/
def dbOrd : DB :=
  { products := [(pidB, bootP)], users := [uidA], carts := []
    orders := [(oidC, orderC)], orderSeq := 1 }

/-- Witness for C7 at `dbOrd`/`orderC`, transition times 100 then 200. -/
theorem delivered_stamp_once_witness :
    isValidObjectId oidC = true ∧
    dbOrd.findOrder oidC = some orderC ∧
    orderC.deliveredAt = none ∧
    Order.valid { orderC with orderStatus := "Delivered" } = true ∧
    ((((updateOrderStatus dbOrd oidC (some "Delivered") none none 100).2.findOrder oidC).map
        Order.deliveredAt = some (some 100)) ∧
      ((((updateOrderStatus (updateOrderStatus dbOrd oidC (some "Delivered") none none 100).2
        oidC (some "Delivered") none none 200).2.findOrder oidC).map
        Order.deliveredAt) = some (some 100))) :=
  ⟨by decide, by decide, rfl, by decide,
    delivered_stamp_once dbOrd oidC orderC 100 200 (by decide) (by decide) rfl (by decide)⟩

/-- C10: a status update carrying a truthy body `deliveredAt` value `d`
stores exactly `d` — whatever `orderStatus` the body carries (it need
not be `"Delivered"`) and whatever `deliveredAt` the order already had. -/
theorem delivered_client_value (db : DB) (oid : String) (o : Order)
    (os : Option String) (d now : ℤ)
    (hid : isValidObjectId oid = true)
    (hfind : db.findOrder oid = some o)
    (hd : d ≠ 0)
    (hval : Order.valid (applyOrderStatus o os) = true) :
    (((updateOrderStatus db oid os none (some d) now).2.findOrder oid).map
      Order.deliveredAt) = some (some d) := by
  have key : updateOrderStatus db oid os none (some d) now =
      (.ok 200 { applyOrderStatus o os with deliveredAt := some d },
        db.setOrder oid { applyOrderStatus o os with deliveredAt := some d }) := by
    simp [updateOrderStatus, statusPatch, hid, hfind, applyTracking, deliveredAtTruthy, hd]
    simpa [Order.valid] using hval
  rw [key, findOrder_setOrder]
  rfl

/-- An already-stamped order fixture (status `"Processing"`,
`deliveredAt` 99). -/
def orderD : Order :=
  { orderC with orderStatus := "Processing", deliveredAt := some 99 }

/-- A store holding just `orderD` under `oidC`. -/
def dbOrd2 : DB := { dbOrd with orders := [(oidC, orderD)] }

/-- Witness for C10: body `orderStatus := "Shipped"` (not Delivered),
body `deliveredAt := 123`, existing stamp 99 — the stored stamp
becomes 123. -/
theorem delivered_client_value_witness :
    isValidObjectId oidC = true ∧
    dbOrd2.findOrder oidC = some orderD ∧
    (123 : ℤ) ≠ 0 ∧
    Order.valid (applyOrderStatus orderD (some "Shipped")) = true ∧
    (((updateOrderStatus dbOrd2 oidC (some "Shipped") none (some 123) 7).2.findOrder oidC).map
      Order.deliveredAt) = some (some 123) :=
  ⟨by decide, by decide, by decide, by decide,
    delivered_client_value dbOrd2 oidC orderD (some "Shipped") 123 7
      (by decide) (by decide) (by decide) (by decide)⟩

/-! ## C9 — orders are immutable except for status fields -/

/-- The fields of an order the claim says no exposed update may change. -/
def orderFrame (o : Order) :
    String × List OrderItem × ShippingInfo × String × Option String × ℤ × ℤ × ℤ :=
  (o.userId, o.products, o.shippingInfo, o.paymentMethod, o.mpesaNumber,
    o.subtotalAmount, o.shippingCost, o.totalAmount)

/-- Assigning `orderStatus` from the body leaves the frame alone. -/
theorem orderFrame_applyOrderStatus (o : Order) (os : Option String) :
    orderFrame (applyOrderStatus o os) = orderFrame o := by
  cases os with
  | none => rfl
  | some s =>
    dsimp only [applyOrderStatus]
    split <;> rfl

/-- Assigning `trackingNumber` from the body leaves the frame alone. -/
theorem orderFrame_applyTracking (o : Order) (tn : Option String) :
    orderFrame (applyTracking o tn) = orderFrame o := by
  cases tn <;> rfl

/-- The full in-memory patch of a status update leaves the frame
alone: only `orderStatus`, `trackingNumber` and `deliveredAt` move. -/
theorem orderFrame_statusPatch (o : Order) (os tn : Option String)
    (d : Option ℤ) (now : ℤ) :
    orderFrame (statusPatch o os tn d now) = orderFrame o := by
  have base : orderFrame (applyTracking (applyOrderStatus o os) tn) = orderFrame o := by
    rw [orderFrame_applyTracking, orderFrame_applyOrderStatus]
  unfold statusPatch
  dsimp only
  split_ifs <;> exact base

/-- C9: the status-update and payment-status-update endpoints can change
only the status fields: after either request, the stored order's
`userId`, `products` (snapshots), `shippingInfo`, `paymentMethod`,
`mpesaNumber`, `subtotalAmount`, `shippingCost` and `totalAmount` are
exactly what they were before. -/
theorem status_updates_frame (db : DB) (id : String) (os tn : Option String)
    (d : Option ℤ) (now : ℤ) (ps : Option String) :
    (((updateOrderStatus db id os tn d now).2.findOrder id).map orderFrame =
      (db.findOrder id).map orderFrame) ∧
    (((updatePaymentStatus db id ps).2.findOrder id).map orderFrame =
      (db.findOrder id).map orderFrame) := by
  constructor
  · unfold updateOrderStatus
    split
    · rfl
    · cases hfind : db.findOrder id with
      | none => simp [hfind]
      | some o =>
        dsimp only
        split
        · rw [findOrder_setOrder]
          simp [orderFrame_statusPatch]
        · simp [hfind]
  · unfold updatePaymentStatus
    split
    · rfl
    · cases hfind : db.findOrder id with
      | none => simp [hfind]
      | some o =>
        cases ps with
        | none => simp [hfind]
        | some s =>
          dsimp only
          split
          · split
            · rw [findOrder_setOrder]
              rfl
            · simp [hfind]
          · simp [hfind]

/-! ## C5 — addItem stock failure leaves the cart unchanged -/

/-- Format-valid ids are nonempty (they have 24 characters). -/
theorem validObjectId_ne_empty (s : String) (h : isValidObjectId s = true) :
    s ≠ "" := by
  intro he
  subst he
  exact absurd h (by decide)

/-- C5: when the quantity already in the cart plus the requested
quantity exceeds the product's live stock, `addItem` answers 400 with
the insufficient-stock message (naming the product, its available stock
and the combined quantity) and the whole store — in particular the
stored cart — is exactly as before. -/
theorem addItem_insufficient_unchanged (db : DB) (u pid : String) (q : ℤ) (prod : Product)
    (hu : isValidObjectId u = true) (hp : isValidObjectId pid = true)
    (hq : 1 ≤ q)
    (hprod : db.findProduct pid = some prod)
    (hstock : prod.quantity <
      q + ((((db.findCartItems u).find? (·.productId == pid)).map CartItem.quantity).getD 0)) :
    addItem db u pid q =
      (.err 400 (addInsufficientMsg prod.name prod.quantity
        (q + ((((db.findCartItems u).find? (·.productId == pid)).map CartItem.quantity).getD 0))),
        db) := by
  have h1 : ¬ (u = "" ∨ ¬ isValidObjectId u = true) := by
    rintro (he | hh)
    · exact validObjectId_ne_empty u hu he
    · exact hh hu
  have h2 : ¬ (pid = "" ∨ ¬ isValidObjectId pid = true) := by
    rintro (he | hh)
    · exact validObjectId_ne_empty pid hp he
    · exact hh hp
  unfold addItem
  rw [if_neg h1, if_neg h2, if_neg (not_lt.mpr hq), hprod]
  dsimp only
  rw [if_pos hstock]

/-- Witness for C5 at `db1`: the cart already holds 3 units of `pidB`
(stock 5); asking for 3 more fails and leaves the store untouched. -/
theorem addItem_insufficient_unchanged_witness :
    isValidObjectId uidA = true ∧ (1 : ℤ) ≤ 3 ∧
    db1.findProduct pidB = some bootP ∧
    bootP.quantity <
      3 + ((((db1.findCartItems uidA).find? (·.productId == pidB)).map CartItem.quantity).getD 0) ∧
    addItem db1 uidA pidB 3 =
      (.err 400 (addInsufficientMsg bootP.name bootP.quantity
        (3 + ((((db1.findCartItems uidA).find? (·.productId == pidB)).map CartItem.quantity).getD 0))),
        db1) :=
  ⟨by decide, by decide, by decide, by decide,
    addItem_insufficient_unchanged db1 uidA pidB 3 bootP
      (by decide) (by decide) (by decide) (by decide) (by decide)⟩

/-! ## C4 — two adds of the same product merge into one line item -/

/-- `find?` skips a prefix containing no match. -/
theorem find?_append_none {α : Type} (l₁ l₂ : List α) (p : α → Bool)
    (h : l₁.find? p = none) : (l₁ ++ l₂).find? p = l₂.find? p := by
  simp [List.find?_append, h]

/-- Re-reading an upserted cart by its owner yields the upserted cart. -/
theorem find?_replaceCart (l : List Cart) (c : Cart) :
    (replaceCart l c).find? (·.user == c.user) = some c := by
  induction l with
  | nil => simp [replaceCart, List.find?]
  | cons a t ih =>
    by_cases h : (a.user == c.user) = true
    · simp only [replaceCart, h, if_true]
      exact List.find?_cons_of_pos _ (by simp)
    · simp only [replaceCart, h, if_false, Bool.false_eq_true]
      rw [List.find?_cons_of_neg _ (by simpa using h)]
      exact ih

/-- Store-level version of `find?_replaceCart`. -/
theorem findCart_setCart (db : DB) (c : Cart) :
    (db.setCart c).findCart c.user = some c :=
  find?_replaceCart db.carts c

/-- The items read back after persisting a cart are the persisted
items. -/
theorem findCartItems_setCart (db : DB) (c : Cart) :
    (db.setCart c).findCartItems c.user = c.products := by
  unfold DB.findCartItems
  rw [findCart_setCart]

/-- `incFirst` on a list whose only match is its last element updates
exactly that element. -/
theorem incFirst_append_last (l : List CartItem) (x : CartItem) (pid : String)
    (q pr : ℤ)
    (h : ∀ it ∈ l, ¬ (it.productId == pid) = true)
    (hx : (x.productId == pid) = true) :
    incFirst (l ++ [x]) pid q pr =
      l ++ [{ x with quantity := x.quantity + q, priceAtTimeOfAddition := pr }] := by
  induction l with
  | nil => simp [incFirst, hx]
  | cons a t ih =>
    have ha := h a (by simp)
    simp only [List.cons_append, incFirst, ha, if_false, Bool.false_eq_true]
    exact congrArg (a :: ·) (ih fun it hit => h it (by simp [hit]))

/-- A successful `addItem` of a product that is not yet in the cart
appends a fresh line item carrying the product's current price (both
when a cart already exists and when the upsert creates one). -/
theorem addItem_fresh (db : DB) (u pid : String) (q : ℤ) (prod : Product)
    (hu : isValidObjectId u = true) (hp : isValidObjectId pid = true)
    (hq : 1 ≤ q)
    (hprod : db.findProduct pid = some prod)
    (hnotin : ∀ it ∈ db.findCartItems u, ¬ (it.productId == pid) = true)
    (hs : q ≤ prod.quantity) :
    addItem db u pid q =
      (.ok 200 ⟨u, db.findCartItems u ++ [⟨pid, q, prod.price⟩]⟩,
        db.setCart ⟨u, db.findCartItems u ++ [⟨pid, q, prod.price⟩]⟩) := by
  have h1 : ¬ (u = "" ∨ ¬ isValidObjectId u = true) := by
    rintro (he | hh)
    · exact validObjectId_ne_empty u hu he
    · exact hh hu
  have h2 : ¬ (pid = "" ∨ ¬ isValidObjectId pid = true) := by
    rintro (he | hh)
    · exact validObjectId_ne_empty pid hp he
    · exact hh hp
  have hnone : (db.findCartItems u).find? (·.productId == pid) = none :=
    List.find?_eq_none.mpr hnotin
  unfold addItem
  rw [if_neg h1, if_neg h2, if_neg (not_lt.mpr hq), hprod]
  dsimp only
  rw [hnone]
  have hcond : ¬ (prod.quantity <
      q + ((Option.map CartItem.quantity (none : Option CartItem)).getD 0)) := by
    simpa using hs
  rw [if_neg hcond]
  cases hc : db.findCart u with
  | none =>
    have hitems : db.findCartItems u = [] := by simp [DB.findCartItems, hc]
    simp [hitems]
  | some cart =>
    have huser : cart.user = u := by
      have := List.find?_some hc
      simpa using this
    have hitems : db.findCartItems u = cart.products := by
      simp [DB.findCartItems, hc]
    have hany : cart.products.any (·.productId == pid) = false := by
      rw [List.any_eq_false]
      intro it hit
      exact hnotin it (hitems ▸ hit)
    dsimp only
    rw [if_neg (by simp [hany]), hitems]
    have hcart : ({ cart with products := cart.products ++ [⟨pid, q, prod.price⟩] } : Cart) =
        ⟨u, cart.products ++ [⟨pid, q, prod.price⟩]⟩ := by
      rw [Cart.mk.injEq]
      exact ⟨huser, rfl⟩
    rw [hcart]

/-- A successful `addItem` of a product already in the cart goes through
the positional `$inc`/`$set` update: the first matching line item gets
its quantity increased and its price refreshed. -/
theorem addItem_existing (db : DB) (u pid : String) (q : ℤ) (prod : Product) (cart : Cart)
    (hu : isValidObjectId u = true) (hp : isValidObjectId pid = true)
    (hq : 1 ≤ q)
    (hprod : db.findProduct pid = some prod)
    (hcart : db.findCart u = some cart)
    (hs : q + ((cart.products.find? (·.productId == pid)).map CartItem.quantity).getD 0 ≤
      prod.quantity)
    (hin : cart.products.any (·.productId == pid) = true) :
    addItem db u pid q =
      (.ok 200 { cart with products := incFirst cart.products pid q prod.price },
        db.setCart { cart with products := incFirst cart.products pid q prod.price }) := by
  have h1 : ¬ (u = "" ∨ ¬ isValidObjectId u = true) := by
    rintro (he | hh)
    · exact validObjectId_ne_empty u hu he
    · exact hh hu
  have h2 : ¬ (pid = "" ∨ ¬ isValidObjectId pid = true) := by
    rintro (he | hh)
    · exact validObjectId_ne_empty pid hp he
    · exact hh hp
  have hitems : db.findCartItems u = cart.products := by
    simp [DB.findCartItems, hcart]
  unfold addItem
  rw [if_neg h1, if_neg h2, if_neg (not_lt.mpr hq), hprod]
  dsimp only
  rw [hitems, if_neg (not_lt.mpr hs), hcart]
  dsimp only
  rw [if_pos hin]

set_option maxHeartbeats 2000000 in
/-- C4: adding `q₁` units of a product absent from the cart, then `q₂`
more of the same product (between the two calls the product document may
change arbitrarily to `p₂`, e.g. a price edit), yields a cart holding
exactly one line item for that product, with quantity `q₁ + q₂` and
`priceAtTimeOfAddition` the product's price at the time of the second
call; the second call succeeds (status 200). -/
theorem addItem_merges (db : DB) (u pid : String) (q₁ q₂ : ℤ) (p₁ p₂ : Product)
    (hu : isValidObjectId u = true) (hp : isValidObjectId pid = true)
    (h1 : 1 ≤ q₁) (h2 : 1 ≤ q₂)
    (hprod : db.findProduct pid = some p₁)
    (hnotin : ∀ it ∈ db.findCartItems u, ¬ (it.productId == pid) = true)
    (hs1 : q₁ ≤ p₁.quantity)
    (hs2 : q₁ + q₂ ≤ p₂.quantity) :
    (((((addItem ((addItem db u pid q₁).2.setProduct pid p₂) u pid q₂).2.findCartItems u).countP
        (·.productId == pid)) = 1) ∧
      (((addItem ((addItem db u pid q₁).2.setProduct pid p₂) u pid q₂).2.findCartItems u).find?
        (·.productId == pid) = some ⟨pid, q₁ + q₂, p₂.price⟩) ∧
      ((addItem ((addItem db u pid q₁).2.setProduct pid p₂) u pid q₂).1).status = 200) := by
  have hfirst := addItem_fresh db u pid q₁ p₁ hu hp h1 hprod hnotin hs1
  have hdb₂ : (addItem db u pid q₁).2 =
      db.setCart ⟨u, db.findCartItems u ++ [⟨pid, q₁, p₁.price⟩]⟩ := by
    rw [hfirst]
  have hcart₃ : ((addItem db u pid q₁).2.setProduct pid p₂).findCart u =
      some ⟨u, db.findCartItems u ++ [⟨pid, q₁, p₁.price⟩]⟩ := by
    rw [hdb₂]
    exact findCart_setCart db ⟨u, db.findCartItems u ++ [⟨pid, q₁, p₁.price⟩]⟩
  have hprod₃ : ((addItem db u pid q₁).2.setProduct pid p₂).findProduct pid = some p₂ :=
    lookupKey_upsertByKey _ pid p₂
  have hfindlast : (db.findCartItems u ++ [(⟨pid, q₁, p₁.price⟩ : CartItem)]).find?
      (·.productId == pid) = some ⟨pid, q₁, p₁.price⟩ := by
    rw [find?_append_none _ _ _ (List.find?_eq_none.mpr hnotin)]
    simp [List.find?]
  have hsum : q₂ + (((db.findCartItems u ++ [(⟨pid, q₁, p₁.price⟩ : CartItem)]).find?
      (·.productId == pid)).map CartItem.quantity).getD 0 ≤ p₂.quantity := by
    rw [hfindlast]
    show q₂ + q₁ ≤ p₂.quantity
    omega
  have hany : (db.findCartItems u ++ [(⟨pid, q₁, p₁.price⟩ : CartItem)]).any
      (·.productId == pid) = true := by
    rw [List.any_eq_true]
    exact ⟨⟨pid, q₁, p₁.price⟩, by simp⟩
  have hsecond := addItem_existing ((addItem db u pid q₁).2.setProduct pid p₂) u pid q₂ p₂
    ⟨u, db.findCartItems u ++ [⟨pid, q₁, p₁.price⟩]⟩ hu hp h2 hprod₃ hcart₃ hsum hany
  dsimp only at hsecond
  have hinc : incFirst (db.findCartItems u ++ [⟨pid, q₁, p₁.price⟩]) pid q₂ p₂.price =
      db.findCartItems u ++ [⟨pid, q₁ + q₂, p₂.price⟩] :=
    incFirst_append_last _ _ _ _ _ hnotin (by simp)
  have hitems : (addItem ((addItem db u pid q₁).2.setProduct pid p₂) u pid q₂).2.findCartItems u =
      db.findCartItems u ++ [⟨pid, q₁ + q₂, p₂.price⟩] := by
    rw [hsecond]
    exact (findCartItems_setCart ((addItem db u pid q₁).2.setProduct pid p₂)
      ⟨u, incFirst (db.findCartItems u ++ [⟨pid, q₁, p₁.price⟩]) pid q₂ p₂.price⟩).trans hinc
  refine ⟨?_, ?_, ?_⟩
  · rw [hitems, List.countP_append]
    have hzero : (db.findCartItems u).countP (·.productId == pid) = 0 :=
      List.countP_eq_zero.mpr hnotin
    rw [hzero]
    simp [List.countP, List.countP.go]
  · rw [hitems]
    rw [find?_append_none _ _ _ (List.find?_eq_none.mpr hnotin)]
    simp [List.find?]
  · rw [hsecond]
    rfl

/-- A store with one product (price 10, stock 5) and no carts. -/
def dbC4 : DB :=
  { products := [(pidB, bootP)], users := [uidA], carts := [], orders := []
    orderSeq := 0 }

/-- The boot after an admin price edit to 12. -/
def bootP12 : Product := { bootP with price := 12 }

/-- Witness for C4: add 2 units, change the price to 12, add 3 more —
one line item, quantity 5, price 12 (the price at the second call). -/
theorem addItem_merges_witness :
    isValidObjectId uidA = true ∧ (1 : ℤ) ≤ 2 ∧
    dbC4.findProduct pidB = some bootP ∧
    (∀ it ∈ dbC4.findCartItems uidA, ¬ (it.productId == pidB) = true) ∧
    (2 : ℤ) ≤ bootP.quantity ∧ (2 : ℤ) + 3 ≤ bootP12.quantity ∧
    (((((addItem ((addItem dbC4 uidA pidB 2).2.setProduct pidB bootP12) uidA pidB 3).2.findCartItems
          uidA).countP (·.productId == pidB)) = 1) ∧
      (((addItem ((addItem dbC4 uidA pidB 2).2.setProduct pidB bootP12) uidA pidB 3).2.findCartItems
          uidA).find? (·.productId == pidB) = some ⟨pidB, 2 + 3, bootP12.price⟩) ∧
      ((addItem ((addItem dbC4 uidA pidB 2).2.setProduct pidB bootP12) uidA pidB 3).1).status = 200) :=
  ⟨by decide, by decide, by decide, by decide, by decide, by decide,
    addItem_merges dbC4 uidA pidB 2 3 bootP bootP12 (by decide) (by decide) (by decide)
      (by decide) (by decide) (by decide) (by decide) (by decide)⟩

/-! ## C6 — cart well-formedness invariant -/

/-- The claimed cart invariant: line-item product ids are pairwise
distinct and every stored quantity is at least 1. -/
def cartWF (items : List CartItem) : Prop :=
  (items.map CartItem.productId).Nodup ∧ ∀ it ∈ items, 1 ≤ it.quantity

/-- C6 counterexample: submitting the same product twice to `setItems`
succeeds and stores two line items with the same productId, violating
the claimed invariant. -/
theorem cart_invariant_cex :
    ((setItems dbC4 uidA [⟨pidB, 1, 10⟩, ⟨pidB, 2, 10⟩]).1.status = 200) ∧
    ¬ ((((setItems dbC4 uidA [⟨pidB, 1, 10⟩, ⟨pidB, 2, 10⟩]).2.findCartItems uidA).map
        CartItem.productId).Nodup) := by
  decide

/-- A validated items list is the submitted list itself (validation
only checks; the pushed record copies the three fields). -/
theorem validateCartItems_ok (db : DB) (l : List CartItem) :
    ∀ v, validateCartItems db l = .ok v → v = l := by
  induction l with
  | nil => intro v h; simpa [validateCartItems] using h.symm
  | cons item rest ih =>
    intro v h
    simp only [validateCartItems] at h
    split at h
    · exact absurd h (by simp)
    · split at h
      · exact absurd h (by simp)
      · split at h
        · exact absurd h (by simp)
        · split at h
          · exact absurd h (by simp)
          · split at h
            · exact absurd h (by simp)
            · split at h
              · exact absurd h (by simp)
              · cases hrec : validateCartItems db rest with
                | error e => rw [hrec] at h; exact absurd h (by simp [Except.map])
                | ok v' =>
                  rw [hrec] at h
                  simp only [Except.map, Except.ok.injEq] at h
                  rw [← h, ih v' hrec]

/-- Validation failures carry status 400 or 404, never 200. -/
theorem validateCartItems_error (db : DB) (l : List CartItem) :
    ∀ e, validateCartItems db l = .error e → e.1 = 400 ∨ e.1 = 404 := by
  induction l with
  | nil => intro e h; simp [validateCartItems] at h
  | cons item rest ih =>
    intro e h
    simp only [validateCartItems] at h
    split at h
    · left; cases h; rfl
    · split at h
      · left; cases h; rfl
      · split at h
        · left; cases h; rfl
        · split at h
          · left; cases h; rfl
          · split at h
            · right; cases h; rfl
            · split at h
              · left; cases h; rfl
              · cases hrec : validateCartItems db rest with
                | error e' =>
                  rw [hrec] at h
                  simp only [Except.map, Except.error.injEq] at h
                  exact h ▸ ih e' hrec
                | ok v' => rw [hrec] at h; exact absurd h (by simp [Except.map])

/-- The `$inc`/`$set` positional update never touches the product ids. -/
theorem map_productId_incFirst (l : List CartItem) (pid : String) (q pr : ℤ) :
    (incFirst l pid q pr).map CartItem.productId = l.map CartItem.productId := by
  induction l with
  | nil => rfl
  | cons a t ih =>
    by_cases h : (a.productId == pid) = true
    · simp [incFirst, h]
    · simp [incFirst, h, ih]

/-- The positional update keeps every quantity at least 1 when the
increment is at least 1. -/
theorem quantity_incFirst (l : List CartItem) (pid : String) (q pr : ℤ)
    (hl : ∀ it ∈ l, 1 ≤ it.quantity) (hq : 1 ≤ q) :
    ∀ it ∈ incFirst l pid q pr, 1 ≤ it.quantity := by
  induction l with
  | nil => simp [incFirst]
  | cons a t ih =>
    by_cases h : (a.productId == pid) = true
    · simp only [incFirst, h, if_true]
      intro it hit
      rcases List.mem_cons.mp hit with rfl | hmem
      · have := hl a (by simp)
        dsimp only
        omega
      · exact hl it (by simp [hmem])
    · simp only [incFirst, h, if_false, Bool.false_eq_true]
      intro it hit
      rcases List.mem_cons.mp hit with rfl | hmem
      · exact hl it (by simp)
      · exact ih (fun x hx => hl x (by simp [hx])) it hmem

/-- `findCartItems_setCart`, stated for any name of the cart's owner. -/
theorem findCartItems_setCart_of (db : DB) (c : Cart) (u : String) (h : c.user = u) :
    (db.setCart c).findCartItems u = c.products :=
  h ▸ findCartItems_setCart db c

/-- C6 amended: every stored line item has quantity ≥ 1 after either
successful mutation, and product ids stay pairwise distinct after
`addItem` (on a well-formed cart) and after `setItems` whenever the
submitted items have pairwise-distinct product ids; unlike the original
claim, `setItems` does not deduplicate, so duplicate submitted ids are
stored as duplicate line items (see the counterexample). -/
theorem cart_invariant_amended (db : DB) (u pid : String) (q : ℤ) (its : List CartItem)
    (hwf : cartWF (db.findCartItems u))
    (hnodup : (its.map CartItem.productId).Nodup) :
    ((setItems db u its).1.status = 200 → cartWF ((setItems db u its).2.findCartItems u)) ∧
    ((addItem db u pid q).1.status = 200 → cartWF ((addItem db u pid q).2.findCartItems u)) := by
  constructor
  · intro h
    by_cases hu : (u = "" ∨ ¬ isValidObjectId u = true)
    · exfalso
      revert h
      unfold setItems
      rw [if_pos hu]
      simp [Resp.status]
    · cases hv : validateCartItems db its with
      | error e =>
        exfalso
        revert h
        unfold setItems
        rw [if_neg hu, hv]
        rcases validateCartItems_error db its e hv with h4 | h4 <;>
          simp [Resp.status, h4]
      | ok v =>
        by_cases hall : ((v.filter (fun it => decide (0 < it.quantity))).all
            (fun it => decide (1 ≤ it.quantity))) = true
        · have hveq : v = its := validateCartItems_ok db its v hv
          have hred : setItems db u its =
              (.ok 200 ⟨u, v.filter (fun it => decide (0 < it.quantity))⟩,
                db.setCart ⟨u, v.filter (fun it => decide (0 < it.quantity))⟩) := by
            unfold setItems
            rw [if_neg hu, hv]
            dsimp only
            rw [if_pos hall]
          rw [hred]
          rw [findCartItems_setCart_of _ _ _ rfl]
          constructor
          · subst hveq
            exact List.Nodup.sublist (List.Sublist.map _ (List.filter_sublist _)) hnodup
          · intro it hit
            exact of_decide_eq_true (List.all_eq_true.mp hall it hit)
        · exfalso
          revert h
          unfold setItems
          rw [if_neg hu, hv]
          dsimp only
          rw [if_neg hall]
          simp [Resp.status]
  · intro h
    by_cases hu2 : (u = "" ∨ ¬ isValidObjectId u = true)
    · exfalso
      revert h
      unfold addItem
      rw [if_pos hu2]
      simp [Resp.status]
    · by_cases hp2 : (pid = "" ∨ ¬ isValidObjectId pid = true)
      · exfalso
        revert h
        unfold addItem
        rw [if_neg hu2, if_pos hp2]
        simp [Resp.status]
      · by_cases hq2 : (q < 1)
        · exfalso
          revert h
          unfold addItem
          rw [if_neg hu2, if_neg hp2, if_pos hq2]
          simp [Resp.status]
        · have hq1 : 1 ≤ q := not_lt.mp hq2
          have hu3 : isValidObjectId u = true := not_not.mp (not_or.mp hu2).2
          have hp3 : isValidObjectId pid = true := not_not.mp (not_or.mp hp2).2
          cases hprod : db.findProduct pid with
          | none =>
            exfalso
            revert h
            unfold addItem
            rw [if_neg hu2, if_neg hp2, if_neg hq2, hprod]
            simp [Resp.status]
          | some prod =>
            by_cases hstock : (prod.quantity <
                q + (((db.findCartItems u).find? (·.productId == pid)).map
                  CartItem.quantity).getD 0)
            · exfalso
              revert h
              unfold addItem
              rw [if_neg hu2, if_neg hp2, if_neg hq2, hprod]
              dsimp only
              rw [if_pos hstock]
              simp [Resp.status]
            · have hsle : q + (((db.findCartItems u).find? (·.productId == pid)).map
                  CartItem.quantity).getD 0 ≤ prod.quantity := not_lt.mp hstock
              cases hc : db.findCart u with
              | none =>
                have h0 : db.findCartItems u = [] := by simp [DB.findCartItems, hc]
                have hnotin0 : ∀ it ∈ db.findCartItems u, ¬ (it.productId == pid) = true := by
                  rw [h0]
                  simp
                have hs0 : q ≤ prod.quantity := by
                  rw [h0] at hsle
                  simpa using hsle
                rw [addItem_fresh db u pid q prod hu3 hp3 hq1 hprod hnotin0 hs0]
                dsimp only
                rw [findCartItems_setCart_of _ _ _ rfl]
                rw [h0]
                exact ⟨by simp, by simpa using hq1⟩
              | some cart =>
                have huser : cart.user = u := by
                  have := List.find?_some hc
                  simpa using this
                have hitems : db.findCartItems u = cart.products := by
                  simp [DB.findCartItems, hc]
                by_cases hin : (cart.products.any (·.productId == pid)) = true
                · have hsle2 : q + ((cart.products.find? (·.productId == pid)).map
                      CartItem.quantity).getD 0 ≤ prod.quantity := hitems ▸ hsle
                  rw [addItem_existing db u pid q prod cart hu3 hp3 hq1 hprod hc hsle2 hin]
                  dsimp only
                  rw [findCartItems_setCart_of db
                    ⟨cart.user, incFirst cart.products pid q prod.price⟩ u huser]
                  constructor
                  · dsimp only
                    rw [map_productId_incFirst]
                    exact hitems ▸ hwf.1
                  · exact quantity_incFirst _ _ _ _ (fun it hx => hwf.2 it (hitems ▸ hx)) hq1
                · have hnotin2 : ∀ it ∈ db.findCartItems u, ¬ (it.productId == pid) = true := by
                    rw [hitems]
                    exact List.any_eq_false.mp (by simpa using hin)
                  have hs2 : q ≤ prod.quantity := by
                    have hfn : (db.findCartItems u).find? (·.productId == pid) = none :=
                      List.find?_eq_none.mpr hnotin2
                    rw [hfn] at hsle
                    simpa using hsle
                  rw [addItem_fresh db u pid q prod hu3 hp3 hq1 hprod hnotin2 hs2]
                  dsimp only
                  rw [findCartItems_setCart_of _ _ _ rfl]
                  constructor
                  · rw [List.map_append]
                    have hpidnot : pid ∉ (db.findCartItems u).map CartItem.productId := by
                      intro hmem
                      rcases List.mem_map.mp hmem with ⟨it, hit, hpid⟩
                      exact hnotin2 it hit (by simp [hpid])
                    simp [List.nodup_append, hwf.1, hpidnot]
                  · intro it hit
                    rcases List.mem_append.mp hit with hmem | hmem
                    · exact hwf.2 it hmem
                    · simp only [List.mem_singleton] at hmem
                      subst hmem
                      simpa using hq1

/-- Witness for the amended C6 on `dbC4` (empty cart, distinct ids). -/
theorem cart_invariant_amended_witness :
    cartWF (dbC4.findCartItems uidA) ∧
    (([⟨pidB, 2, 10⟩] : List CartItem).map CartItem.productId).Nodup ∧
    ((setItems dbC4 uidA [⟨pidB, 2, 10⟩]).1.status = 200 →
      cartWF ((setItems dbC4 uidA [⟨pidB, 2, 10⟩]).2.findCartItems uidA)) ∧
    ((addItem dbC4 uidA pidB 2).1.status = 200 →
      cartWF ((addItem dbC4 uidA pidB 2).2.findCartItems uidA)) :=
  ⟨⟨by decide, by decide⟩, by decide,
    (cart_invariant_amended dbC4 uidA pidB 2 [⟨pidB, 2, 10⟩]
      ⟨by decide, by decide⟩ (by decide)).1,
    (cart_invariant_amended dbC4 uidA pidB 2 [⟨pidB, 2, 10⟩]
      ⟨by decide, by decide⟩ (by decide)).2⟩

/-! ## C8 — identifier format validation -/

/-- C8 counterexample: a malformed order id on the single-order read is
answered with a 500 "Server Error" (the `CastError` of `findById`
lands in the catch-all), not with the claimed 400 client error. -/
theorem objectId_validation_cex :
    (getOrderById dbOrd "not-an-objectid").status = 500 ∧
    ¬ (getOrderById dbOrd "not-an-objectid").status = 400 := by
  decide

/-- C8 amended: the cart endpoints do reject a malformed id with a 400
client error, but none of the order endpoints validates id format —
`createOrder` (malformed body `userId`), both order reads and both
status updates surface the database cast failure as a 500 server
error (and never as a 404). -/
theorem objectId_validation_amended (db : DB) (bad pid : String) (q : ℤ)
    (its : List CartItem) (os tn : Option String) (d : Option ℤ) (now : ℤ)
    (ps : Option String) (req : CreateOrderReq)
    (hbad : isValidObjectId bad = false)
    (hne : bad ≠ "") (hprods : req.products ≠ []) :
    (getCart db bad).status = 400 ∧
    ((addItem db bad pid q).1).status = 400 ∧
    ((setItems db bad its).1).status = 400 ∧
    ((clearCart db bad).1).status = 400 ∧
    (getOrderById db bad).status = 500 ∧
    (getMyOrders db bad).status = 500 ∧
    ((updateOrderStatus db bad os tn d now).1).status = 500 ∧
    ((updatePaymentStatus db bad ps).1).status = 500 ∧
    ((createOrder db { req with userId := bad }).1).status = 500 := by
  refine ⟨?_, ?_, ?_, ?_, ?_, ?_, ?_, ?_, ?_⟩
  · simp [getCart, hbad, Resp.status]
  · simp [addItem, hbad, Resp.status]
  · simp [setItems, hbad, Resp.status]
  · simp [clearCart, hbad, Resp.status]
  · simp [getOrderById, hbad, Resp.status]
  · simp [getMyOrders, hbad, Resp.status]
  · simp [updateOrderStatus, hbad, Resp.status]
  · simp [updatePaymentStatus, hbad, Resp.status]
  · simp [createOrder, hbad, hne, hprods, Resp.status]

/-- Witness for the amended C8 at the malformed id `"nope"`. -/
theorem objectId_validation_amended_witness :
    isValidObjectId "nope" = false ∧ "nope" ≠ "" ∧ req1.products ≠ [] ∧
    ((getCart dbOrd "nope").status = 400 ∧
      ((addItem dbOrd "nope" pidB 1).1).status = 400 ∧
      ((setItems dbOrd "nope" []).1).status = 400 ∧
      ((clearCart dbOrd "nope").1).status = 400 ∧
      (getOrderById dbOrd "nope").status = 500 ∧
      (getMyOrders dbOrd "nope").status = 500 ∧
      ((updateOrderStatus dbOrd "nope" none none none 0).1).status = 500 ∧
      ((updatePaymentStatus dbOrd "nope" none).1).status = 500 ∧
      ((createOrder dbOrd { req1 with userId := "nope" }).1).status = 500) :=
  ⟨by decide, by decide, by decide,
    objectId_validation_amended dbOrd "nope" pidB 1 [] none none none 0 none req1
      (by decide) (by decide) (by decide)⟩
